import Mathlib

/-!
Shallow embedding of the governance, self-examination and treatment-decision
engine of the repository (app/backend/orchestrator.py and
app/backend/tools/treatment_orchestrator.py), together with theorems settling
the specification claims about it.

Modelling conventions:
- Python dicts (`ai_instances`, `execution_handlers`, the trend-grouping dict)
  become association lists `List (String × _)`; Python dicts are
  insertion-ordered and we mirror that: assignment replaces the first matching
  key in place or appends, lookup returns the first match.
- Python floats become `ℚ` (the spec speaks of exact fractions).
- Wall-clock readings (`datetime.now()`, `time.time()`) and the md5 request id
  are ambient inputs of the environment; they are passed in as explicit
  parameters where the source samples them.
- Validators and producer outputs: the validator capability is an external pure
  function `output -> {valid, reason}`; the output type is an opaque parameter
  `Ω` (the source's `{'output': ia_output}` wrapper dict is absorbed into `Ω`,
  since the governance engine never inspects outputs beyond handing them to
  validators).
-/

/-- Result of a validator capability: the `{valid, reason}` dict of the source. -/
structure VResult where
  valid : Bool
  reason : String
deriving Repr, DecidableEq

/-- The mutable performance snapshot created at registration
(`{'accuracy': 0.0, 'response_time': 0, 'error_rate': 0.0}`); the source
initialises it and never mutates it afterwards. -/
structure Performance where
  accuracy : ℚ
  response_time : ℚ
  error_rate : ℚ
deriving Repr, DecidableEq

/-- One entry of `AIGovernance.ai_instances`: the per-producer registration
record created by `register_ai`. -/
structure AIInstance (Ω : Type) where
  aiType : String
  validator : Ω → VResult
  performance : Performance
  health : String
  last_check : Option String
  consecutive_errors : Nat

/-- State of an `AIGovernance` object.  Audit entries are kept as their message
strings; the ambient timestamp the spec attaches to an Audit Entry is not
inspected by any operation and is abstracted away. -/
structure GovState (Ω : Type) where
  ai_instances : List (String × AIInstance Ω)
  consensus_threshold : ℚ
  audit_log : List String
  anomaly_detection_enabled : Bool

/-- `AIGovernance.__init__`. -/
def initGov (Ω : Type) : GovState Ω :=
  { ai_instances := []
    consensus_threshold := 7/10
    audit_log := []
    anomaly_detection_enabled := true }

/-- First-match lookup in an association list (Python dict read). -/
def alookup : List (String × β) → String → Option β
  | [], _ => none
  | (k, v) :: rest, m => if k = m then some v else alookup rest m

/-- Python dict assignment `d[k] = v`: replace the first binding of `k` in
place, or append a fresh binding at the end. -/
def updateAssoc : List (String × β) → String → β → List (String × β)
  | [], k, v => [(k, v)]
  | (k', v') :: rest, k, v =>
      if k' = k then (k, v) :: rest else (k', v') :: updateAssoc rest k v

/-- Python in-place mutation `f(d[k])` of the binding of `k` (no-op when `k` is
absent; every call site has already checked membership). -/
def amodify : List (String × β) → String → (β → β) → List (String × β)
  | [], _, _ => []
  | (k', v) :: rest, k, f =>
      if k' = k then (k, f v) :: rest else (k', v) :: amodify rest k f

/-- Modelled from the spec: `AIGovernance._audit` is called throughout the
source (`register_ai`, `_handle_invalid_output`, `_handle_anomaly`,
`_attempt_recovery`) and the backing `audit_log` list is initialised and its
length reported, but the method's own definition is not among the source files.
The spec describes the Audit Entry store as an append-only sequence of
`{timestamp, message}` entries owned by the Governance Orchestrator, so
`_audit` appends one entry (its message; the ambient timestamp is abstracted,
no operation reads it back). -/
def audit (s : GovState Ω) (msg : String) : GovState Ω :=
  { s with audit_log := s.audit_log ++ [msg] }

/-- `AIGovernance.register_ai`. -/
def registerAI (s : GovState Ω) (name aiType : String) (validator : Ω → VResult) :
    GovState Ω :=
  let s1 := { s with
    ai_instances := updateAssoc s.ai_instances name
      { aiType := aiType
        validator := validator
        performance := { accuracy := 0, response_time := 0, error_rate := 0 }
        health := "healthy"
        last_check := none
        consecutive_errors := 0 } }
  audit s1 ("IA registrada: " ++ name ++ " (" ++ aiType ++ ")")

/-- Read of `self.ai_instances[name]`. -/
def lookupAI (s : GovState Ω) (name : String) : Option (AIInstance Ω) :=
  alookup s.ai_instances name

/-- Return value of `AIGovernance._cross_validate`: either the bare
`{'anomaly_detected': False}` dict (no peer validations) or the full report. -/
inductive CrossVal
  | noPeers
  | report (agreement_rate : ℚ) (anomaly_detected : Bool) (required_threshold : ℚ)
deriving Repr, DecidableEq

/-- The `anomaly_detected` field of a cross-validation dict. -/
def CrossVal.anomalyDetected : CrossVal → Bool
  | .noPeers => false
  | .report _ a _ => a

/-- `AIGovernance._cross_validate`: every *other* registered producer's
validator judges the output; `agreement_rate = sum(validations)/len(validations)`
(sum of booleans = count of `true`). -/
def crossValidate (s : GovState Ω) (source : String) (output : Ω) : CrossVal :=
  let validations :=
    (s.ai_instances.filter (fun p => p.1 ≠ source)).map
      (fun p => (p.2.validator output).valid)
  if validations = [] then .noPeers
  else
    let agreement_rate : ℚ := (validations.count true : ℚ) / (validations.length : ℚ)
    .report agreement_rate (decide (agreement_rate < s.consensus_threshold))
      s.consensus_threshold

/-- `AIGovernance._attempt_recovery`: reset the consecutive-error counter to 0
and audit. -/
def attemptRecovery (s : GovState Ω) (name : String) : GovState Ω :=
  let s1 := { s with
    ai_instances := amodify s.ai_instances name
      (fun i => { i with consecutive_errors := 0 }) }
  audit s1 ("RECOVERY: Reiniciando " ++ name)

/-- `AIGovernance._handle_invalid_output`: increment the producer's
consecutive-error counter; once it reads `>= 3`, mark the producer `degraded`,
audit, and attempt recovery. -/
def handleInvalidOutput (s : GovState Ω) (name : String) : GovState Ω :=
  let s1 := { s with
    ai_instances := amodify s.ai_instances name
      (fun i => { i with consecutive_errors := i.consecutive_errors + 1 }) }
  match lookupAI s1 name with
  | none => s1
  | some i =>
      if 3 ≤ i.consecutive_errors then
        let s2 := { s1 with
          ai_instances := amodify s1.ai_instances name
            (fun j => { j with health := "degraded" }) }
        let s3 := audit s2 ("ALERTA: " ++ name ++ " entra en modo degradado (3+ errores)")
        attemptRecovery s3 name
      else s1

/-- `AIGovernance._handle_anomaly`: audit the anomaly, then audit either a
rollback (severe disagreement, rate < 0.3) or a feedback request.  The source
formats the rate as a percentage into the message; the numeric rendering is
abstracted here (no operation reads audit messages back). -/
def handleAnomaly (s : GovState Ω) (name : String) (cv : CrossVal) : GovState Ω :=
  match cv with
  | .noPeers => s
  | .report rate _ _ =>
      let s1 := audit s ("ANOMALIA: " ++ name ++ " - Consenso bajo reportado")
      if rate < 3/10 then
        audit s1 ("ROLLBACK: " ++ name ++ " - Desacuerdo severo")
      else
        audit s1 ("FEEDBACK: " ++ name ++ " - Requiere revision (consenso bajo)")

/-- The dict returned by `AIGovernance.verify_output`:
`{'valid': False, 'reason': ...}` dicts (the unregistered-producer reply or the
producer's own `internal_check`), the anomaly reply carrying the
cross-validation details, or the success reply `{'valid': True, 'confidence': 0.95}`. -/
inductive VerifyOutcome
  | result (r : VResult)
  | anomaly (details : CrossVal)
  | ok
deriving Repr, DecidableEq

/-- The `valid` field of a `verify_output` reply. -/
def VerifyOutcome.valid : VerifyOutcome → Bool
  | .result r => r.valid
  | .anomaly _ => false
  | .ok => true

/-- `AIGovernance.verify_output`: self-check via the producer's own validator,
then (when more than one producer is registered) cross-validation. -/
def verifyOutput (s : GovState Ω) (ai_name : String) (output : Ω) :
    VerifyOutcome × GovState Ω :=
  match lookupAI s ai_name with
  | none => (.result { valid := false, reason := "IA no registrada" }, s)
  | some inst =>
      let internal_check := inst.validator output
      if internal_check.valid = false then
        (.result internal_check, handleInvalidOutput s ai_name)
      else if 1 < s.ai_instances.length then
        let cv := crossValidate s ai_name output
        if cv.anomalyDetected then
          (.anomaly cv, handleAnomaly s ai_name cv)
        else (.ok, s)
      else (.ok, s)

/-- Python's exception channel for `verify_output`: an inductive of the error
kinds the spec names at this boundary. -/
inductive GovError
  | unregisteredProducerError
deriving Repr, DecidableEq

/-- `verify_output` with the Python exception channel made explicit: the body
of the source method contains no `raise` on any path (validators are pure per
the spec's external-interface contract), so every call returns normally with
the reply value. -/
def verifyOutputExc (s : GovState Ω) (ai_name : String) (output : Ω) :
    Except GovError (VerifyOutcome × GovState Ω) :=
  Except.ok (verifyOutput s ai_name output)

/-! ## Self-Examination Engine (`SelfExamination`) -/

/-- One Performance Sample `{timestamp, metric, value}` of
`SelfExamination.performance_history`. -/
structure Sample where
  timestamp : String
  metric : String
  value : ℚ
deriving Repr, DecidableEq

/-- `history[-10:]`: the last `n` elements of a list. -/
def lastN (l : List α) (n : Nat) : List α :=
  l.drop (l.length - n)

/-- One step of the grouping loop of `_detect_trends`: append `v` to the
group of metric `m`, creating the group on first sight (Python dict insertion
order preserved). -/
def appendGroup : List (String × List ℚ) → String → ℚ → List (String × List ℚ)
  | [], m, v => [(m, [v])]
  | (k, vs) :: rest, m, v =>
      if k = m then (k, vs ++ [v]) :: rest else (k, vs) :: appendGroup rest m v

/-- Trend classification of one metric's grouped values in `_detect_trends`:
fewer than 2 values is `insufficient_data`; otherwise compare the relative
change `(values[-1] - values[0]) / values[0]` (0 when `values[0] == 0`)
against ±0.1. -/
def trendOf (values : List ℚ) : String :=
  match values with
  | [] => "insufficient_data"
  | [_] => "insufficient_data"
  | v0 :: rest =>
      let vlast := rest.getLastD v0
      let avg_change : ℚ := if v0 ≠ 0 then (vlast - v0) / v0 else 0
      if 1/10 < avg_change then "improving"
      else if avg_change < -(1/10) then "declining"
      else "stable"

/-- `SelfExamination._detect_trends`: group the last 10 entries of the whole
`performance_history` by metric, then classify each group. -/
def detectTrends (history : List Sample) : List (String × String) :=
  let window := lastN history 10
  let groups := window.foldl (fun g e => appendGroup g e.metric e.value) []
  groups.map (fun p => (p.1, trendOf p.2))

/-- `SelfExamination._self_diagnose`: declining metrics become issues,
improving metrics become strengths. -/
def selfDiagnose (trends : List (String × String)) : List String × List String :=
  trends.foldl
    (fun acc p =>
      if p.2 = "declining" then (acc.1 ++ [p.1 ++ " en declive"], acc.2)
      else if p.2 = "improving" then (acc.1, acc.2 ++ [p.1 ++ " mejorando"])
      else acc)
    ([], [])

/-- Python's substring test `pat in s`. -/
def strContains (s pat : String) : Bool :=
  decide (List.IsInfix pat.toList s.toList)

/-- `SelfExamination._generate_improvement_plan`: canned suggestion per known
issue substring; unmatched issues contribute nothing. -/
def improvementPlan (issues : List String) : List String :=
  issues.foldl
    (fun plan issue =>
      if strContains issue "response_time" then
        plan ++ ["Optimizar latencia: revisar algoritmo de procesamiento"]
      else if strContains issue "accuracy" then
        plan ++ ["Mejorar precision: aumentar datos de entrenamiento"]
      else if strContains issue "error_rate" then
        plan ++ ["Reducir errores: implementar validaciones adicionales"]
      else plan)
    []

/-- The dict returned by `SelfExamination.analyze_performance`. -/
structure Analysis where
  timestamp : String
  trends : List (String × String)
  issues : List String
  strengths : List String
  improvement_plan : List String
deriving Repr, DecidableEq

/-- `SelfExamination.analyze_performance`: append one Performance Sample per
metric (in the metrics dict's insertion order) stamped with the ambient
timestamp `ts`, then detect trends, self-diagnose and plan.  Returns the
analysis dict together with the updated `performance_history`. -/
def analyzePerformance (history : List Sample) (metrics : List (String × ℚ))
    (ts : String) : Analysis × List Sample :=
  let history2 := history ++ metrics.map (fun p => { timestamp := ts, metric := p.1, value := p.2 })
  let trends := detectTrends history2
  let dg := selfDiagnose trends
  ({ timestamp := ts
     trends := trends
     issues := dg.1
     strengths := dg.2
     improvement_plan := improvementPlan dg.1 }, history2)

/-! ## Governance Orchestrator (`Orchestrator.process_request`) -/

/-- One producer call of a chain: the function plus its `__name__`. -/
structure Producer (Ω : Type) where
  name : String
  fn : String → Ω

/-- State of an `Orchestrator` object (the parts the claims touch:
its governance object and its self-examination history). -/
structure OrchState (Ω : Type) where
  governance : GovState Ω
  performance_history : List Sample

/-- The producer loop of `process_request`: run each producer on the input,
verify its output, and accumulate `{'ia': name, 'output': output}` entries for
the outputs that verified as valid (invalid ones are logged and skipped). -/
def processChain (g : GovState Ω) (input : String) (chain : List (Producer Ω)) :
    List (String × Ω) × GovState Ω :=
  chain.foldl
    (fun acc p =>
      let ia_output := p.fn input
      let vr := verifyOutput acc.2 p.name ia_output
      if vr.1.valid then (acc.1 ++ [(p.name, ia_output)], vr.2) else (acc.1, vr.2))
    ([], g)

/-- The dict returned by `Orchestrator.process_request` (the `metrics` sub-dict
is flattened into the three fields the source writes into it). -/
structure ProcessOutput (Ω : Type) where
  request_id : String
  results : List (String × Ω)
  response_time : ℚ
  ias_executed : Nat
  success_rate : ℚ
  self_analysis : Analysis
  timestamp : String

/-- `Orchestrator.process_request`.  The md5-derived request id, the elapsed
wall-clock time and the completion timestamp are ambient environment inputs
(`request_id`, `elapsed`, `ts`). -/
def processRequest (st : OrchState Ω) (user_input : String)
    (ia_chain : List (Producer Ω)) (request_id : String) (elapsed : ℚ)
    (ts : String) : ProcessOutput Ω × OrchState Ω :=
  let rg := processChain st.governance user_input ia_chain
  let results := rg.1
  let success_rate : ℚ :=
    if ia_chain.isEmpty then 0 else (results.length : ℚ) / (ia_chain.length : ℚ)
  let metrics : List (String × ℚ) :=
    [("response_time", elapsed),
     ("ias_executed", (results.length : ℚ)),
     ("success_rate", success_rate)]
  let ah := analyzePerformance st.performance_history metrics ts
  ({ request_id := request_id
     results := results
     response_time := elapsed
     ias_executed := results.length
     success_rate := success_rate
     self_analysis := ah.1
     timestamp := ts },
   { governance := rg.2, performance_history := ah.2 })

/-! ## Treatment Orchestrator (`tools/treatment_orchestrator.py`) -/

/-- `TreatmentMode`. -/
inductive TreatmentMode
  | HUMAN_IN_LOOP
  | AUTONOMOUS
deriving Repr, DecidableEq

/-- `DisconnectionLevel`. -/
inductive DisconnectionLevel
  | NONE
  | CONTEXT_ISOLATION
  | RESPONSE_FILTERING
  | ENDPOINT_MUTING
  | FULL_DISCONNECTION
deriving Repr, DecidableEq

/-- `TreatmentOption` dataclass. -/
structure TreatmentOption where
  id : String
  name : String
  description : String
  risk_level : String
  expected_recovery_time : String
  reversible : Bool
  requires_human_approval : Bool
  prerequisites : List String := []
  disconnection_level : Option DisconnectionLevel := none
deriving Repr, DecidableEq

/-- `ApprovedTreatment` dataclass (`approved_at` is the ambient
`datetime.now()` reading, kept as a string timestamp). -/
structure ApprovedTreatment where
  treatment_option : TreatmentOption
  approved_by : String
  approved_at : String
  approval_rationale : String
  execution_status : String := "pending"
  execution_result : String := ""
deriving Repr, DecidableEq

/-- Behaviour of one execution-handler call: the handler either returns a
result (kept as the text `str(result)` the source stores) or raises an
exception (kept as the text `str(e)`). -/
def HandlerBehaviour : Type := Except String String

/-- State of a `TreatmentOrchestrator` object (the static `TreatmentCatalog`
is omitted: no claim touches the authored catalog entries). -/
structure TOState where
  mode : TreatmentMode
  approved_treatments : List ApprovedTreatment
  execution_handlers : List (String × HandlerBehaviour)
  is_parameterized : Bool

/-- `TreatmentOrchestrator.__init__`. -/
def initTO (mode : TreatmentMode) : TOState :=
  { mode := mode
    approved_treatments := []
    execution_handlers := []
    is_parameterized := decide (mode = TreatmentMode.AUTONOMOUS) }

/-- `TreatmentOrchestrator.register_execution_handler`. -/
def registerExecutionHandler (st : TOState) (treatment_id : String)
    (handler : HandlerBehaviour) : TOState :=
  { st with execution_handlers := updateAssoc st.execution_handlers treatment_id handler }

/-- `TreatmentOrchestrator.human_approve_treatment`: on a false decision no
Approved Treatment is created; on a true decision one is created with
`approved_by="human"` and appended to the history. -/
def humanApproveTreatment (st : TOState) (opt : TreatmentOption)
    (human_decision : Bool) (rationale : String) (now : String) :
    Option ApprovedTreatment × TOState :=
  if human_decision = false then (none, st)
  else
    let approved : ApprovedTreatment :=
      { treatment_option := opt
        approved_by := "human"
        approved_at := now
        approval_rationale := rationale }
    (some approved, { st with approved_treatments := st.approved_treatments ++ [approved] })

/-- The Approved Treatment `autonomous_approve_treatment` creates on success. -/
def autoApproved (opt : TreatmentOption) (now : String) : ApprovedTreatment :=
  { treatment_option := opt
    approved_by := "orchestrator"
    approved_at := now
    approval_rationale := "Critical severity detected, auto-approving " ++ opt.id }

/-- `TreatmentOrchestrator.autonomous_approve_treatment`: returns none unless
the orchestrator is parameterized for autonomous decisions; auto-approves only
when the option requires human approval and the severity is critical. -/
def autonomousApproveTreatment (st : TOState) (opt : TreatmentOption)
    (condition_severity : String) (now : String) :
    Option ApprovedTreatment × TOState :=
  if st.is_parameterized = false then (none, st)
  else if opt.requires_human_approval && (condition_severity == "critical") then
    let approved := autoApproved opt now
    (some approved, { st with approved_treatments := st.approved_treatments ++ [approved] })
  else (none, st)

/-- Observable outcome of one `execute_treatment` call: the returned success
flag, the treatment object as the call leaves it, the successive values the
call assigns to `execution_status` (in program order), and how many times the
execution handler was invoked. -/
structure ExecOutcome where
  success : Bool
  treatment : ApprovedTreatment
  statusWrites : List String
  handlerRuns : Nat
deriving Repr, DecidableEq

/-- `TreatmentOrchestrator.execute_treatment`: with no registered handler the
treatment is marked failed; otherwise the status is first set to `executing`,
the handler runs, and the call ends in `completed` (returning true) or, when
the handler raises, in `failed` with the exception text captured (returning
false) — the exception is absorbed, not re-raised. -/
def executeTreatment (st : TOState) (t : ApprovedTreatment) : ExecOutcome :=
  match alookup st.execution_handlers t.treatment_option.id with
  | none =>
      { success := false
        treatment := { t with execution_status := "failed",
                              execution_result := "No handler registered" }
        statusWrites := ["failed"]
        handlerRuns := 0 }
  | some h =>
      match h with
      | .ok r =>
          { success := true
            treatment := { t with execution_status := "completed",
                                  execution_result := r }
            statusWrites := ["executing", "completed"]
            handlerRuns := 1 }
      | .error e =>
          { success := false
            treatment := { t with execution_status := "failed",
                                  execution_result := e }
            statusWrites := ["executing", "failed"]
            handlerRuns := 1 }

/-- `execute_treatment` with the Python exception channel made explicit: the
source wraps the handler invocation in `try/except Exception`, absorbing the
handler's exception into the status and result fields, and contains no `raise`
of its own, so every call returns normally with its outcome. -/
def executeTreatmentExc (st : TOState) (t : ApprovedTreatment) :
    Except String ExecOutcome :=
  Except.ok (executeTreatment st t)

/-- Position of an execution status in the forward order
`pending → executing → {completed, failed}` (the two terminal states share the
final position). -/
def statusRank : String → Nat
  | "pending" => 0
  | "executing" => 1
  | "completed" => 2
  | "failed" => 2
  | _ => 0

/-! ## Specification-side definitions and reachability -/

/-- The quantity the spec calls `agreement_rate`: the exact fraction of the
registered producers other than the source whose validator accepts the
output. -/
def peerAgreementFraction (s : GovState Ω) (source : String) (output : Ω) : ℚ :=
  let others := s.ai_instances.filter (fun p => p.1 ≠ source)
  ((others.countP (fun p => (p.2.validator output).valid)) : ℚ) / (others.length : ℚ)

/-- Trend computation following the words of the claim about per-metric
windows: for metric `m`, take the most recent 10 samples whose metric name is
`m` (oldest-to-newest within that window) and classify them; no entry when `m`
has no sample at all.  This is the claim's reading, to be compared with the
source's `detectTrends`. -/
def detectTrendsPerMetricSpec (history : List Sample) (m : String) : Option String :=
  let vals := (history.filter (fun e => e.metric = m)).map (fun e => e.value)
  let window := lastN vals 10
  if window = [] then none else some (trendOf window)

/-- Governance states reachable through the public operations: a fresh
`AIGovernance` object transformed by `register_ai` and `verify_output`
calls. -/
inductive GovReachable (Ω : Type) : GovState Ω → Prop
  | init : GovReachable Ω (initGov Ω)
  | register (s : GovState Ω) (name aiType : String) (v : Ω → VResult) :
      GovReachable Ω s → GovReachable Ω (registerAI s name aiType v)
  | verify (s : GovState Ω) (name : String) (output : Ω) :
      GovReachable Ω s → GovReachable Ω (verifyOutput s name output).2

/-- The consecutive-error counters of all registered producers are at most 2. -/
def ErrBound (s : GovState Ω) : Prop :=
  ∀ name i, lookupAI s name = some i → i.consecutive_errors ≤ 2

/-! ## Concrete witness inputs -/

/-- A validator accepting every output. -/
def vOk : Unit → VResult := fun _ => { valid := true, reason := "" }

/-- A validator rejecting every output. -/
def vBad : Unit → VResult := fun _ => { valid := false, reason := "bad" }

/-- A registration record as `register_ai` creates it, with a chosen validator
and consecutive-error counter. -/
def mkInst (v : Unit → VResult) (errs : Nat) : AIInstance Unit :=
  { aiType := "tipo"
    validator := v
    performance := { accuracy := 0, response_time := 0, error_rate := 0 }
    health := "healthy"
    last_check := none
    consecutive_errors := errs }

/-- Three registered producers: the source and one peer accept, one peer
rejects, so the peer agreement on any output is 1/2. -/
def c2State : GovState Unit :=
  { ai_instances := [("a", mkInst vOk 0), ("b", mkInst vOk 0), ("c", mkInst vBad 0)]
    consensus_threshold := 7/10
    audit_log := []
    anomaly_detection_enabled := true }

/-- One producer that rejects every output, already at 2 consecutive errors. -/
def c3State : GovState Unit :=
  { ai_instances := [("a", mkInst vBad 2)]
    consensus_threshold := 7/10
    audit_log := []
    anomaly_detection_enabled := true }

/-- One accepting producer with a nonzero error counter. -/
def c8State : GovState Unit :=
  { ai_instances := [("a", mkInst vOk 1)]
    consensus_threshold := 7/10
    audit_log := []
    anomaly_detection_enabled := true }

/-- A freshly registered single producer. -/
def c10State : GovState Unit :=
  registerAI (initGov Unit) "a" "tipo" vBad

/-- Performance history interleaving metrics: metric `a` has exactly the two
samples `[100, 80]`, followed by ten samples of metric `b`. -/
def c1History : List Sample :=
  { timestamp := "t", metric := "a", value := 100 } ::
  { timestamp := "t", metric := "a", value := 80 } ::
  List.replicate 10 { timestamp := "t", metric := "b", value := 1 }

/-- A treatment option that requires human approval. -/
def sampleOption : TreatmentOption :=
  { id := "opt1"
    name := "Graceful System Restart"
    description := "Restart all services cleanly"
    risk_level := "high"
    expected_recovery_time := "2 minutes"
    reversible := true
    requires_human_approval := true
    prerequisites := []
    disconnection_level := none }

/-- A human-approved treatment for `sampleOption`, still pending. -/
def sampleApproved : ApprovedTreatment :=
  { treatment_option := sampleOption
    approved_by := "human"
    approved_at := "t0"
    approval_rationale := "ok"
    execution_status := "pending"
    execution_result := "" }

/-- A human-in-loop orchestrator with a succeeding handler bound to `opt1`. -/
def c4TO : TOState :=
  registerExecutionHandler (initTO TreatmentMode.HUMAN_IN_LOOP) "opt1" (Except.ok "done")

/-- `sampleApproved` after one successful execution. -/
def c4Executed : ApprovedTreatment :=
  (executeTreatment c4TO sampleApproved).treatment

/-- An orchestrator whose `opt1` handler raises (exception text `boom`). -/
def c7TO : TOState :=
  registerExecutionHandler (initTO TreatmentMode.HUMAN_IN_LOOP) "opt1" (Except.error "boom")

/-- A fresh top-level orchestrator state. -/
def c9State : OrchState Unit :=
  { governance := initGov Unit, performance_history := [] }

/-! ## Association-list lemmas -/

theorem alookup_amodify_self (l : List (String × β)) (k : String) (f : β → β) :
    alookup (amodify l k f) k = (alookup l k).map f := by
  induction l with
  | nil => rfl
  | cons p rest ih =>
      obtain ⟨k', v⟩ := p
      by_cases h : k' = k
      · subst h
        simp [amodify, alookup]
      · simp [amodify, alookup, h, ih]

theorem alookup_amodify_ne (l : List (String × β)) (k k' : String) (f : β → β)
    (h : k' ≠ k) : alookup (amodify l k f) k' = alookup l k' := by
  induction l with
  | nil => rfl
  | cons p rest ih =>
      obtain ⟨k0, v⟩ := p
      by_cases h0 : k0 = k
      · subst h0
        simp [amodify, alookup, Ne.symm h]
      · simp [amodify, alookup, h0, ih]

theorem alookup_updateAssoc_self (l : List (String × β)) (k : String) (v : β) :
    alookup (updateAssoc l k v) k = some v := by
  induction l with
  | nil => simp [updateAssoc, alookup]
  | cons p rest ih =>
      obtain ⟨k0, v0⟩ := p
      by_cases h0 : k0 = k
      · subst h0
        simp [updateAssoc, alookup]
      · simp [updateAssoc, alookup, h0, ih]

theorem alookup_updateAssoc_ne (l : List (String × β)) (k k' : String) (v : β)
    (h : k' ≠ k) : alookup (updateAssoc l k v) k' = alookup l k' := by
  induction l with
  | nil => simp [updateAssoc, alookup, Ne.symm h]
  | cons p rest ih =>
      obtain ⟨k0, v0⟩ := p
      by_cases h0 : k0 = k
      · subst h0
        simp [updateAssoc, alookup, Ne.symm h]
      · simp [updateAssoc, alookup, h0, ih]

/-! ## Frame and characterization lemmas for the governance operations -/

theorem ai_instances_audit (s : GovState Ω) (msg : String) :
    (audit s msg).ai_instances = s.ai_instances := rfl

theorem ai_instances_handleAnomaly (s : GovState Ω) (name : String) (cv : CrossVal) :
    (handleAnomaly s name cv).ai_instances = s.ai_instances := by
  cases cv with
  | noPeers => rfl
  | report rate a th =>
      simp only [handleAnomaly]
      split <;> rfl

theorem lookupAI_handleInvalidOutput_ne (s : GovState Ω) (name other : String)
    (h : other ≠ name) :
    lookupAI (handleInvalidOutput s name) other = lookupAI s other := by
  simp only [handleInvalidOutput, lookupAI]
  split
  · exact alookup_amodify_ne _ _ _ _ h
  · split
    · simp only [attemptRecovery, audit]
      rw [alookup_amodify_ne _ _ _ _ h, alookup_amodify_ne _ _ _ _ h,
        alookup_amodify_ne _ _ _ _ h]
    · exact alookup_amodify_ne _ _ _ _ h

theorem lookupAI_handleInvalidOutput_self (s : GovState Ω) (name : String)
    (i : AIInstance Ω) (hreg : lookupAI s name = some i) :
    lookupAI (handleInvalidOutput s name) name =
      some (if 3 ≤ i.consecutive_errors + 1
            then { i with consecutive_errors := 0, health := "degraded" }
            else { i with consecutive_errors := i.consecutive_errors + 1 }) := by
  simp only [lookupAI] at hreg
  have hs1 : alookup (amodify s.ai_instances name
      (fun j => { j with consecutive_errors := j.consecutive_errors + 1 })) name
      = some { i with consecutive_errors := i.consecutive_errors + 1 } := by
    rw [alookup_amodify_self, hreg]
    rfl
  simp only [handleInvalidOutput, lookupAI, hs1]
  by_cases hc : 3 ≤ i.consecutive_errors + 1
  · simp only [hc, if_true]
    simp only [attemptRecovery, audit]
    rw [alookup_amodify_self, alookup_amodify_self, hs1]
    rfl
  · simp [hc, hs1]

theorem audit_log_handleInvalidOutput (s : GovState Ω) (name : String)
    (i : AIInstance Ω) (hreg : lookupAI s name = some i) :
    (handleInvalidOutput s name).audit_log =
      if 3 ≤ i.consecutive_errors + 1
      then s.audit_log ++
        ["ALERTA: " ++ name ++ " entra en modo degradado (3+ errores)",
         "RECOVERY: Reiniciando " ++ name]
      else s.audit_log := by
  simp only [lookupAI] at hreg
  have hs1 : alookup (amodify s.ai_instances name
      (fun j => { j with consecutive_errors := j.consecutive_errors + 1 })) name
      = some { i with consecutive_errors := i.consecutive_errors + 1 } := by
    rw [alookup_amodify_self, hreg]
    rfl
  simp only [handleInvalidOutput, lookupAI, hs1]
  by_cases hc : 3 ≤ i.consecutive_errors + 1
  · simp [hc, attemptRecovery, audit]
  · simp [hc]

theorem verifyOutput_invalid (s : GovState Ω) (name : String) (i : AIInstance Ω)
    (output : Ω) (hreg : lookupAI s name = some i)
    (hinv : (i.validator output).valid = false) :
    verifyOutput s name output =
      (.result (i.validator output), handleInvalidOutput s name) := by
  simp [verifyOutput, hreg, hinv]

theorem verifyOutput_valid (s : GovState Ω) (name : String) (i : AIInstance Ω)
    (output : Ω) (hreg : lookupAI s name = some i)
    (hvalid : (i.validator output).valid = true) :
    verifyOutput s name output =
      if 1 < s.ai_instances.length then
        if (crossValidate s name output).anomalyDetected then
          (.anomaly (crossValidate s name output),
           handleAnomaly s name (crossValidate s name output))
        else (.ok, s)
      else (.ok, s) := by
  simp [verifyOutput, hreg, hvalid]

/-! ## Claim C8 -/

/-- Claim C8: a verify call whose self-check passes leaves every producer
registration record — in particular the producer's consecutive-error counter —
exactly as it was before the call; no implicit reset or decrement happens on
success. -/
theorem verify_success_preserves_counter_C8 (Ω : Type) (s : GovState Ω)
    (name : String) (i : AIInstance Ω) (output : Ω)
    (hreg : lookupAI s name = some i)
    (hvalid : (i.validator output).valid = true) :
    (verifyOutput s name output).2.ai_instances = s.ai_instances ∧
    lookupAI (verifyOutput s name output).2 name = some i := by
  rw [verifyOutput_valid s name i output hreg hvalid]
  by_cases hl : 1 < s.ai_instances.length
  · simp only [hl, if_true]
    by_cases ha : (crossValidate s name output).anomalyDetected
    · simp only [ha, if_true]
      exact ⟨ai_instances_handleAnomaly s name _, by
        simpa [lookupAI, ai_instances_handleAnomaly] using hreg⟩
    · simp only [ha, Bool.false_eq_true, if_false]
      exact ⟨trivial, hreg⟩
  · simp only [hl, if_false]
    exact ⟨trivial, hreg⟩

theorem verify_success_preserves_counter_C8_witness :
    (verifyOutput c8State "a" ()).2.ai_instances = c8State.ai_instances ∧
    lookupAI (verifyOutput c8State "a" ()).2 "a" = some (mkInst vOk 1) :=
  verify_success_preserves_counter_C8 Unit c8State "a" (mkInst vOk 1) () rfl rfl

/-! ## Claim C3 -/

/-- Claim C3: an invalid self-check increments the producer's consecutive-error
counter; the increment that brings the counter to 3 transitions the producer to
degraded, emits the degradation audit entry, and triggers exactly one recovery
action (exactly one RECOVERY audit entry), which resets the counter to 0.
Below the threshold the counter just increments and nothing else changes. -/
theorem invalid_selfcheck_counter_C3 (Ω : Type) (s : GovState Ω) (name : String)
    (i : AIInstance Ω) (output : Ω)
    (hreg : lookupAI s name = some i)
    (hinv : (i.validator output).valid = false)
    (hbound : i.consecutive_errors ≤ 2) :
    (i.consecutive_errors = 2 →
      lookupAI (verifyOutput s name output).2 name =
        some { i with consecutive_errors := 0, health := "degraded" } ∧
      (verifyOutput s name output).2.audit_log = s.audit_log ++
        ["ALERTA: " ++ name ++ " entra en modo degradado (3+ errores)",
         "RECOVERY: Reiniciando " ++ name]) ∧
    (i.consecutive_errors < 2 →
      lookupAI (verifyOutput s name output).2 name =
        some { i with consecutive_errors := i.consecutive_errors + 1 } ∧
      (verifyOutput s name output).2.audit_log = s.audit_log) := by
  rw [verifyOutput_invalid s name i output hreg hinv]
  simp only [Prod.snd]
  constructor
  · intro h2
    have hc : 3 ≤ i.consecutive_errors + 1 := by omega
    constructor
    · rw [lookupAI_handleInvalidOutput_self s name i hreg]
      simp [hc]
    · rw [audit_log_handleInvalidOutput s name i hreg]
      simp [hc]
  · intro h2
    have hc : ¬ 3 ≤ i.consecutive_errors + 1 := by omega
    constructor
    · rw [lookupAI_handleInvalidOutput_self s name i hreg]
      simp [hc]
    · rw [audit_log_handleInvalidOutput s name i hreg]
      simp [hc]

theorem invalid_selfcheck_counter_C3_witness :
    lookupAI (verifyOutput c3State "a" ()).2 "a" =
      some { mkInst vBad 2 with consecutive_errors := 0, health := "degraded" } ∧
    (verifyOutput c3State "a" ()).2.audit_log = c3State.audit_log ++
      ["ALERTA: " ++ "a" ++ " entra en modo degradado (3+ errores)",
       "RECOVERY: Reiniciando " ++ "a"] :=
  (invalid_selfcheck_counter_C3 Unit c3State "a" (mkInst vBad 2) () rfl rfl
    (by decide)).1 rfl

/-! ## Claim C10 -/

theorem lookupAI_handleInvalidOutput_none (s : GovState Ω) (name : String)
    (hreg : lookupAI s name = none) :
    lookupAI (handleInvalidOutput s name) name = none := by
  simp only [lookupAI] at hreg
  have hs1 : alookup (amodify s.ai_instances name
      (fun j => { j with consecutive_errors := j.consecutive_errors + 1 })) name
      = none := by
    rw [alookup_amodify_self, hreg]
    rfl
  simp only [handleInvalidOutput, lookupAI, hs1]

theorem errBound_init (Ω : Type) : ErrBound (initGov Ω) := by
  intro name i h
  simp [lookupAI, initGov, alookup] at h

theorem errBound_register (s : GovState Ω) (name aiType : String)
    (v : Ω → VResult) (hs : ErrBound s) : ErrBound (registerAI s name aiType v) := by
  intro n i h
  simp only [registerAI, lookupAI, audit] at h
  by_cases hn : n = name
  · subst hn
    rw [alookup_updateAssoc_self] at h
    cases h
    exact Nat.zero_le 2
  · rw [alookup_updateAssoc_ne _ _ _ _ hn] at h
    exact hs n i h

theorem errBound_handleInvalidOutput (s : GovState Ω) (name : String)
    (hs : ErrBound s) : ErrBound (handleInvalidOutput s name) := by
  intro n i h
  by_cases hn : n = name
  · subst hn
    cases hreg : lookupAI s n with
    | none => rw [lookupAI_handleInvalidOutput_none s n hreg] at h; cases h
    | some j =>
        rw [lookupAI_handleInvalidOutput_self s n j hreg] at h
        have hj : j.consecutive_errors ≤ 2 := hs n j hreg
        by_cases hc : 3 ≤ j.consecutive_errors + 1
        · simp only [hc, if_true] at h
          cases h
          exact Nat.zero_le 2
        · simp only [hc, if_false] at h
          cases h
          show j.consecutive_errors + 1 ≤ 2
          omega
  · rw [lookupAI_handleInvalidOutput_ne s name n hn] at h
    exact hs n i h

theorem errBound_verify (s : GovState Ω) (name : String) (output : Ω)
    (hs : ErrBound s) : ErrBound (verifyOutput s name output).2 := by
  cases hreg : lookupAI s name with
  | none => simpa [verifyOutput, hreg] using hs
  | some i =>
      by_cases hv : (i.validator output).valid = false
      · rw [verifyOutput_invalid s name i output hreg hv]
        exact errBound_handleInvalidOutput s name hs
      · have hv' : (i.validator output).valid = true := by
          cases hb : (i.validator output).valid
          · exact absurd hb hv
          · rfl
        rw [verifyOutput_valid s name i output hreg hv']
        by_cases hl : 1 < s.ai_instances.length
        · simp only [hl, if_true]
          by_cases ha : (crossValidate s name output).anomalyDetected
          · simp only [ha, if_true]
            intro n j hj
            simp only [lookupAI, ai_instances_handleAnomaly] at hj
            exact hs n j hj
          · simpa [ha] using hs
        · simpa [hl] using hs

theorem govReachable_errBound (s : GovState Ω) (h : GovReachable Ω s) :
    ErrBound s := by
  induction h with
  | init => exact errBound_init Ω
  | register s' n t v _ ih => exact errBound_register s' n t v ih
  | verify s' n o _ ih => exact errBound_verify s' n o ih

/-- Claim C10: in every governance state reachable through registration and
verification calls, every registered producer's consecutive-error counter is at
most 2 — the degraded transition and the recovery reset happen inside the same
verify call as the third consecutive failure, so a counter of 3 or more is
never observable between calls. -/
theorem reachable_counter_bound_C10 (Ω : Type) (s : GovState Ω)
    (h : GovReachable Ω s) (name : String) (i : AIInstance Ω)
    (hreg : lookupAI s name = some i) : i.consecutive_errors ≤ 2 :=
  govReachable_errBound s h name i hreg

theorem reachable_counter_bound_C10_witness :
    lookupAI c10State "a" = some (mkInst vBad 0) ∧
    (mkInst vBad 0).consecutive_errors ≤ 2 :=
  ⟨rfl, reachable_counter_bound_C10 Unit c10State
    (GovReachable.register (initGov Unit) "a" "tipo" vBad GovReachable.init)
    "a" (mkInst vBad 0) rfl⟩

/-! ## Claim C2 -/

theorem others_ne_nil (Ω : Type) (s : GovState Ω) (name : String)
    (hnd : (s.ai_instances.map Prod.fst).Nodup)
    (hlen : 2 ≤ s.ai_instances.length) :
    s.ai_instances.filter (fun p => p.1 ≠ name) ≠ [] := by
  intro hemp
  have hall : ∀ p ∈ s.ai_instances, p.1 = name := by
    intro p hp
    have h2 := List.filter_eq_nil_iff.mp hemp p hp
    simpa using h2
  cases hi : s.ai_instances with
  | nil =>
      rw [hi] at hlen
      simp at hlen
  | cons p rest =>
      cases rest with
      | nil =>
          rw [hi] at hlen
          simp at hlen
      | cons q rest2 =>
          rw [hi] at hnd hall
          have hp : p.1 = name := hall p (by simp)
          have hq : q.1 = name := hall q (by simp)
          rw [List.map_cons, List.map_cons] at hnd
          exact (List.nodup_cons.mp hnd).1 (by
            rw [hp, hq]
            exact List.mem_cons_self _ _)

theorem crossValidate_report (Ω : Type) (s : GovState Ω) (name : String)
    (output : Ω) (hne : s.ai_instances.filter (fun p => p.1 ≠ name) ≠ []) :
    crossValidate s name output =
      CrossVal.report (peerAgreementFraction s name output)
        (decide (peerAgreementFraction s name output < s.consensus_threshold))
        s.consensus_threshold := by
  have hcount : ((s.ai_instances.filter (fun p => p.1 ≠ name)).map
      (fun p => (p.2.validator output).valid)).count true =
      (s.ai_instances.filter (fun p => p.1 ≠ name)).countP
        (fun p => (p.2.validator output).valid) := by
    simp only [List.count_eq_countP, List.countP_map, Function.comp_def, beq_true]
  have hlen2 : ((s.ai_instances.filter (fun p => p.1 ≠ name)).map
      (fun p => (p.2.validator output).valid)).length =
      (s.ai_instances.filter (fun p => p.1 ≠ name)).length := List.length_map _ _
  simp only [crossValidate, peerAgreementFraction]
  rw [if_neg (by simpa using hne)]
  rw [hcount, hlen2]

/-- Claim C2: when the producer's self-check passes and at least 2 producers
are registered, the cross-validation report carries `agreement_rate` equal to
the exact fraction of the other registered producers' validators that accept
the output, the anomaly flag holds exactly when that fraction is below the
default consensus threshold 7/10 (strict), and a fraction of exactly 7/10 is
not an anomaly (the verify call succeeds). -/
theorem cross_validation_rate_C2 (Ω : Type) (s : GovState Ω) (name : String)
    (i : AIInstance Ω) (output : Ω)
    (hnd : (s.ai_instances.map Prod.fst).Nodup)
    (hth : s.consensus_threshold = 7/10)
    (hreg : lookupAI s name = some i)
    (hvalid : (i.validator output).valid = true)
    (hlen : 2 ≤ s.ai_instances.length) :
    crossValidate s name output =
      CrossVal.report (peerAgreementFraction s name output)
        (decide (peerAgreementFraction s name output < 7/10)) (7/10) ∧
    ((verifyOutput s name output).1 = VerifyOutcome.ok ↔
      ¬ peerAgreementFraction s name output < 7/10) ∧
    (peerAgreementFraction s name output = 7/10 →
      (verifyOutput s name output).1 = VerifyOutcome.ok) := by
  have hne := others_ne_nil Ω s name hnd hlen
  have hcv := crossValidate_report Ω s name output hne
  rw [hth] at hcv
  have hl1 : 1 < s.ai_instances.length := lt_of_lt_of_le (by decide) hlen
  have hiff : (verifyOutput s name output).1 = VerifyOutcome.ok ↔
      ¬ peerAgreementFraction s name output < 7/10 := by
    rw [verifyOutput_valid s name i output hreg hvalid]
    simp only [hl1, if_true, hcv]
    by_cases hr : peerAgreementFraction s name output < 7/10
    · simp [CrossVal.anomalyDetected, hr]
    · simp [CrossVal.anomalyDetected, hr]
  refine ⟨hcv, hiff, fun heq => hiff.mpr ?_⟩
  rw [heq]
  exact lt_irrefl _

theorem cross_validation_rate_C2_witness :
    crossValidate c2State "a" () =
      CrossVal.report (peerAgreementFraction c2State "a" ())
        (decide (peerAgreementFraction c2State "a" () < 7/10)) (7/10) ∧
    ((verifyOutput c2State "a" ()).1 = VerifyOutcome.ok ↔
      ¬ peerAgreementFraction c2State "a" () < 7/10) ∧
    (peerAgreementFraction c2State "a" () = 7/10 →
      (verifyOutput c2State "a" ()).1 = VerifyOutcome.ok) :=
  cross_validation_rate_C2 Unit c2State "a" (mkInst vOk 0) () (by decide) rfl rfl
    rfl (by decide)

/-! ## Claim C1 -/

theorem alookup_appendGroup_self (g : List (String × List ℚ)) (m : String) (v : ℚ) :
    alookup (appendGroup g m v) m = some ((alookup g m).getD [] ++ [v]) := by
  induction g with
  | nil => simp [appendGroup, alookup]
  | cons p rest ih =>
      obtain ⟨k, vs⟩ := p
      by_cases h : k = m
      · subst h
        simp [appendGroup, alookup]
      · simp [appendGroup, alookup, h, ih]

theorem alookup_appendGroup_ne (g : List (String × List ℚ)) (m m' : String)
    (v : ℚ) (h : m' ≠ m) : alookup (appendGroup g m v) m' = alookup g m' := by
  induction g with
  | nil => simp [appendGroup, alookup, Ne.symm h]
  | cons p rest ih =>
      obtain ⟨k, vs⟩ := p
      by_cases h0 : k = m
      · subst h0
        simp [appendGroup, alookup, Ne.symm h]
      · simp [appendGroup, alookup, h0, ih]

theorem alookup_groupFold (l : List Sample) (g0 : List (String × List ℚ))
    (m : String) :
    alookup (l.foldl (fun g e => appendGroup g e.metric e.value) g0) m =
      if alookup g0 m = none ∧ l.filter (fun e => e.metric = m) = []
      then none
      else some ((alookup g0 m).getD [] ++
        (l.filter (fun e => e.metric = m)).map (fun e => e.value)) := by
  induction l generalizing g0 with
  | nil =>
      cases hg : alookup g0 m with
      | none => simp [hg]
      | some vs => simp [hg]
  | cons e rest ih =>
      simp only [List.foldl_cons]
      by_cases hm : e.metric = m
      · rw [ih]
        rw [hm, alookup_appendGroup_self]
        simp [hm, List.filter_cons, List.append_assoc]
      · rw [ih]
        rw [alookup_appendGroup_ne _ _ _ _ (fun hh => hm hh.symm)]
        simp [List.filter_cons, hm]

theorem alookup_map_trend (g : List (String × List ℚ)) (m : String) :
    alookup (g.map (fun p => (p.1, trendOf p.2))) m =
      (alookup g m).map trendOf := by
  induction g with
  | nil => rfl
  | cons p rest ih =>
      obtain ⟨k, vs⟩ := p
      by_cases h : k = m
      · subst h
        simp [alookup]
      · simp [alookup, h, ih]

/-- Claim C1 (amended): the trend the Self-Examination Engine reports for a
metric `m` is computed over `m`'s samples among the 10 most recent Performance
Samples of ALL metrics (oldest-to-newest); `m` receives a trend entry exactly
when one of those 10 samples belongs to `m`, so samples recorded for other
metrics can displace `m`'s samples from the window. -/
theorem detect_trends_window_C1 (history : List Sample) (m : String) :
    alookup (detectTrends history) m =
      if (lastN history 10).filter (fun e => e.metric = m) = []
      then none
      else some (trendOf (((lastN history 10).filter (fun e => e.metric = m)).map
        (fun e => e.value))) := by
  simp only [detectTrends]
  rw [alookup_map_trend, alookup_groupFold]
  by_cases hf : (lastN history 10).filter (fun e => e.metric = m) = []
  · simp [alookup, hf]
  · simp [alookup, hf]

/-- Counterexample to claim C1 as stated: metric `a` has samples `[100, 80]`
(a declining trend under the claimed per-metric window), but ten later samples
of metric `b` push them out of the source's global 10-sample window, so the
source reports no trend at all for `a`. -/
theorem detect_trends_per_metric_cex :
    alookup (detectTrends c1History) "a" = none ∧
    detectTrendsPerMetricSpec c1History "a" = some "declining" ∧
    alookup (detectTrends c1History) "a" ≠ detectTrendsPerMetricSpec c1History "a" := by
  have h1 : alookup (detectTrends c1History) "a" = none := by decide
  have h2 : detectTrendsPerMetricSpec c1History "a" = some "declining" := by
    simp [detectTrendsPerMetricSpec, c1History, lastN, trendOf]
    norm_num
  exact ⟨h1, h2, by rw [h1, h2]; simp⟩

/-! ## Claim C9 -/

/-- Claim C9: `process_request` with an empty producer chain returns normally
with an empty result set and `success_rate = 0` (no division by zero), and in
general the returned `success_rate` equals the number of accepted producers
divided by the chain length. -/
theorem process_request_success_rate_C9 (Ω : Type) (st : OrchState Ω)
    (input request_id ts : String) (elapsed : ℚ) (chain : List (Producer Ω)) :
    (processRequest st input chain request_id elapsed ts).1.success_rate =
      ((processRequest st input chain request_id elapsed ts).1.results.length : ℚ) /
        (chain.length : ℚ) ∧
    (chain = [] →
      (processRequest st input chain request_id elapsed ts).1.results = [] ∧
      (processRequest st input chain request_id elapsed ts).1.success_rate = 0) := by
  constructor
  · cases chain with
    | nil => simp [processRequest, processChain]
    | cons p rest => simp [processRequest]
  · intro hc
    subst hc
    simp [processRequest, processChain]

theorem process_request_success_rate_C9_witness :
    (processRequest c9State "hi" [] "rid" 0 "t").1.success_rate =
      ((processRequest c9State "hi" [] "rid" 0 "t").1.results.length : ℚ) /
        (([] : List (Producer Unit)).length : ℚ) ∧
    (([] : List (Producer Unit)) = [] →
      (processRequest c9State "hi" [] "rid" 0 "t").1.results = [] ∧
      (processRequest c9State "hi" [] "rid" 0 "t").1.success_rate = 0) :=
  process_request_success_rate_C9 Unit c9State "hi" "rid" "t" 0 []

/-! ## Claim C5 -/

/-- Claim C5: `autonomous_approve_treatment` creates, appends to the history
and returns an Approved Treatment with `approved_by = "orchestrator"` exactly
when the orchestrator's mode is autonomous, the option requires human approval,
and the severity is "critical"; under every other combination it returns none
and leaves the approved-treatment history unchanged. -/
theorem autonomous_approve_C5 (mode : TreatmentMode)
    (hist : List ApprovedTreatment) (handlers : List (String × HandlerBehaviour))
    (opt : TreatmentOption) (severity now : String) :
    (autonomousApproveTreatment
        { mode := mode, approved_treatments := hist,
          execution_handlers := handlers,
          is_parameterized := decide (mode = TreatmentMode.AUTONOMOUS) }
        opt severity now =
      if mode = TreatmentMode.AUTONOMOUS ∧ opt.requires_human_approval = true ∧
          severity = "critical"
      then (some (autoApproved opt now),
            { mode := mode, approved_treatments := hist ++ [autoApproved opt now],
              execution_handlers := handlers,
              is_parameterized := decide (mode = TreatmentMode.AUTONOMOUS) })
      else (none,
            { mode := mode, approved_treatments := hist,
              execution_handlers := handlers,
              is_parameterized := decide (mode = TreatmentMode.AUTONOMOUS) })) ∧
    (autoApproved opt now).approved_by = "orchestrator" := by
  constructor
  · cases mode with
    | HUMAN_IN_LOOP => simp [autonomousApproveTreatment]
    | AUTONOMOUS =>
        by_cases hr : opt.requires_human_approval = true
        · by_cases hs : severity = "critical"
          · simp [autonomousApproveTreatment, hr, hs]
          · simp [autonomousApproveTreatment, hr, hs]
        · simp [autonomousApproveTreatment, hr]
  · rfl

/-! ## Claim C4 -/

/-- Counterexample to claim C4 as stated: `sampleApproved`, once executed,
reads `completed`; a second `execute_treatment` call on the very same object
runs the handler again (handlerRuns = 1) and first writes `executing` — a
backward move from `completed` — with no re-approval involved. -/
theorem execute_treatment_rerun_cex :
    c4Executed.execution_status = "completed" ∧
    (executeTreatment c4TO c4Executed).handlerRuns = 1 ∧
    (executeTreatment c4TO c4Executed).statusWrites = ["executing", "completed"] ∧
    statusRank "executing" < statusRank c4Executed.execution_status := by
  refine ⟨rfl, rfl, rfl, ?_⟩
  decide

/-- Claim C4 (amended): within one `execute_treatment` call the status writes
do follow the forward order (`["failed"]` with no handler, else
`["executing", "completed"]` or `["executing", "failed"]`, ending terminal);
but the call performs no prior-status guard, so whenever a handler is
registered it runs — exactly once per call — even on an already-executed
treatment, first moving the status back to `executing` without re-approval. -/
theorem execute_forward_within_call_C4 (st : TOState) (t : ApprovedTreatment) :
    ((executeTreatment st t).statusWrites = ["failed"] ∨
     (executeTreatment st t).statusWrites = ["executing", "completed"] ∨
     (executeTreatment st t).statusWrites = ["executing", "failed"]) ∧
    ((executeTreatment st t).treatment.execution_status = "completed" ∨
     (executeTreatment st t).treatment.execution_status = "failed") ∧
    ((alookup st.execution_handlers t.treatment_option.id).isSome = true →
      (executeTreatment st t).handlerRuns = 1) := by
  cases hh : alookup st.execution_handlers t.treatment_option.id with
  | none => simp [executeTreatment, hh]
  | some h =>
      cases h with
      | ok r => simp [executeTreatment, hh]
      | error e => simp [executeTreatment, hh]

theorem execute_forward_within_call_C4_witness :
    ((executeTreatment c4TO sampleApproved).statusWrites = ["failed"] ∨
     (executeTreatment c4TO sampleApproved).statusWrites = ["executing", "completed"] ∨
     (executeTreatment c4TO sampleApproved).statusWrites = ["executing", "failed"]) ∧
    ((executeTreatment c4TO sampleApproved).treatment.execution_status = "completed" ∨
     (executeTreatment c4TO sampleApproved).treatment.execution_status = "failed") ∧
    ((alookup c4TO.execution_handlers sampleApproved.treatment_option.id).isSome = true →
      (executeTreatment c4TO sampleApproved).handlerRuns = 1) :=
  execute_forward_within_call_C4 c4TO sampleApproved

/-! ## Claim C6 -/

/-- Counterexample to claim C6 as stated: verifying against a fresh governance
object with no registered producers does not raise any error — the call
returns normally with the reply value `{'valid': False, 'reason':
'IA no registrada'}` and the state untouched. -/
theorem unregistered_no_exception_cex :
    verifyOutputExc (initGov Unit) "ghost" () =
      Except.ok (VerifyOutcome.result { valid := false, reason := "IA no registrada" },
        initGov Unit) ∧
    ¬ ∃ e, verifyOutputExc (initGov Unit) "ghost" () = Except.error e := by
  constructor
  · rfl
  · rintro ⟨e, he⟩
    rw [show verifyOutputExc (initGov Unit) "ghost" () =
      Except.ok (VerifyOutcome.result { valid := false, reason := "IA no registrada" },
        initGov Unit) from rfl] at he
    cases he

/-- Claim C6 (amended): a verify call with an unregistered producer name
returns normally — through the value channel, not the exception channel — with
the reply `{'valid': False, 'reason': 'IA no registrada'}` and the governance
state unchanged. -/
theorem unregistered_returns_value_C6 (Ω : Type) (s : GovState Ω)
    (name : String) (output : Ω) (hunreg : lookupAI s name = none) :
    verifyOutputExc s name output =
      Except.ok (VerifyOutcome.result { valid := false, reason := "IA no registrada" }, s) := by
  simp [verifyOutputExc, verifyOutput, hunreg]

theorem unregistered_returns_value_C6_witness :
    verifyOutputExc c2State "ghost" () =
      Except.ok (VerifyOutcome.result { valid := false, reason := "IA no registrada" },
        c2State) :=
  unregistered_returns_value_C6 Unit c2State "ghost" () rfl

/-! ## Claim C7 -/

/-- Claim C7: with a registered handler, `execute_treatment` never raises to
its caller (the exception channel is unused); a raising handler leaves the
exception text in `execution_result`, status `failed` and returns false, a
succeeding handler leaves status `completed`, its result text in
`execution_result` and returns true; the handler runs exactly once. -/
theorem execute_captures_result_C7 (st : TOState) (t : ApprovedTreatment)
    (h : HandlerBehaviour)
    (hreg : alookup st.execution_handlers t.treatment_option.id = some h) :
    executeTreatmentExc st t = Except.ok (executeTreatment st t) ∧
    (executeTreatment st t).success =
      (match h with | .ok _ => true | .error _ => false) ∧
    (executeTreatment st t).treatment.execution_status =
      (match h with | .ok _ => "completed" | .error _ => "failed") ∧
    (executeTreatment st t).treatment.execution_result =
      (match h with | .ok r => r | .error e => e) ∧
    (executeTreatment st t).handlerRuns = 1 := by
  cases h with
  | ok r => simp [executeTreatment, executeTreatmentExc, hreg]
  | error e => simp [executeTreatment, executeTreatmentExc, hreg]

theorem execute_captures_result_C7_witness :
    executeTreatmentExc c7TO sampleApproved =
      Except.ok (executeTreatment c7TO sampleApproved) ∧
    (executeTreatment c7TO sampleApproved).success =
      (match (Except.error "boom" : HandlerBehaviour) with
        | .ok _ => true | .error _ => false) ∧
    (executeTreatment c7TO sampleApproved).treatment.execution_status =
      (match (Except.error "boom" : HandlerBehaviour) with
        | .ok _ => "completed" | .error _ => "failed") ∧
    (executeTreatment c7TO sampleApproved).treatment.execution_result =
      (match (Except.error "boom" : HandlerBehaviour) with
        | .ok r => r | .error e => e) ∧
    (executeTreatment c7TO sampleApproved).handlerRuns = 1 :=
  execute_captures_result_C7 c7TO sampleApproved (Except.error "boom") rfl
